import Mathlib

/-!
Verification of the onboarding automation script (script.js) against its
natural-language specification.

The development shallowly embeds the deterministic decision logic of the
script: the step-archetype registry and its first-match classifier, the
main retry/stall loop, the seen-value store helpers, and the request-field
extractor.  Pages are modelled as a URL together with a list of element
snapshots (tag, data-locator attribute, text content, visibility, enabled
state); the browser driver's side effects (clicks, fills, screenshots,
logging) are modelled only where a claim speaks about them, as the list of
elements a resolver clicks.
-/

/-- Helper for the substring test: does the needle occur as a prefix of
some suffix of the haystack. -/
def substrAux (needle : List Char) : List Char → Bool
  | [] => needle.isEmpty
  | c :: rest => needle.isPrefixOf (c :: rest) || substrAux needle rest

/-- Substring test, modelling the JavaScript String.prototype.includes and
the CSS attribute substring selector [data-locator*=s]. -/
def substr (needle hay : String) : Bool :=
  substrAux needle.data hay.data

/-- Lower-casing, modelling String.prototype.toLowerCase. -/
def lower (s : String) : String :=
  String.mk (s.data.map Char.toLower)

/-- Snapshot of a DOM element as the script observes it: tag name,
data-locator attribute (none models a null getAttribute result), text
content, visibility and enabled state. -/
structure Elem where
  tag : String
  dataLocator : Option String
  text : String
  visible : Bool
  enabled : Bool
deriving DecidableEq

/-- Snapshot of the page: current URL and the elements of the document. -/
structure PageState where
  url : String
  elements : List Elem
deriving DecidableEq

/-- Membership test for the CSS selector [data-locator*=sub]: the attribute
must be present and contain the substring. -/
def hasLoc (e : Elem) (sub : String) : Bool :=
  match e.dataLocator with
  | some l => substr sub l
  | none => false

/-- Detector of the skip_button archetype (script.js lines 99-111): some
button with a truthy (non-null, non-empty) data-locator where the locator
or the lower-cased text contains "skip", visible, enabled, and whose
lower-cased text does not contain "back". -/
def skip_button_detect (p : PageState) : Bool :=
  p.elements.any fun b =>
    b.tag == "button" &&
    (match b.dataLocator with
     | some l =>
       !l.isEmpty && (substr "skip" l || substr "skip" (lower b.text)) &&
       b.visible && b.enabled && !(substr "back" (lower b.text))
     | none => false)

/-- Detector of the multi_select_button archetype (script.js lines 133-135):
an input whose data-locator contains "multi_select" exists and some element
whose data-locator contains "CTAButton" exists. -/
def multi_select_button_detect (p : PageState) : Bool :=
  (p.elements.any fun e => e.tag == "input" && hasLoc e "multi_select") &&
  (p.elements.any fun e => hasLoc e "CTAButton")

/-- Detector of the email_input archetype (script.js lines 240-242). -/
def email_input_detect (p : PageState) : Bool :=
  p.elements.any fun e => e.tag == "input" && hasLoc e "email_input"

/-- Detector of the number_input archetype (script.js lines 262-264). -/
def number_input_detect (p : PageState) : Bool :=
  p.elements.any fun e =>
    e.tag == "input" &&
    (hasLoc e "height_metric_input" || hasLoc e "weight_metric_input" ||
     hasLoc e "ob_age_input")

/-- Detector of the single_button archetype (script.js lines 290-300): some
button with a truthy data-locator containing one of the call-to-action
markers, enabled, whose locator does not contain "back".  Visibility is not
checked by the source. -/
def single_button_detect (p : PageState) : Bool :=
  p.elements.any fun b =>
    b.tag == "button" &&
    (match b.dataLocator with
     | some l =>
       !l.isEmpty &&
       (substr "CTAButton" l || substr "tCTAButton" l ||
        substr "ob_continue_btn" l || substr "obContinue" l) &&
       b.enabled && !(substr "back" l)
     | none => false)

/-- Detector of the option archetype (script.js lines 325-327). -/
def option_detect (p : PageState) : Bool :=
  p.elements.any fun e => hasLoc e "option" || hasLoc e "option_square"

/-- Detector of the single_option archetype (script.js lines 395-420); the
extensive logging it performs has no decision effect. -/
def single_option_detect (p : PageState) : Bool :=
  p.elements.any fun e => e.tag == "input" && hasLoc e "single_select"

/-- Detector of the multi_option archetype (script.js lines 520-522); its
source text coincides with the multi_select_button detector. -/
def multi_option_detect (p : PageState) : Bool :=
  (p.elements.any fun e => e.tag == "input" && hasLoc e "multi_select") &&
  (p.elements.any fun e => hasLoc e "CTAButton")

/-- Detector of the occasion_result_screen archetype (script.js lines
538-551): the URL contains "result" and every input element has a null
data-locator attribute. -/
def occasion_result_screen_detect (p : PageState) : Bool :=
  substr "result" p.url &&
  ((p.elements.filter fun e => e.tag == "input").all fun e =>
    e.dataLocator.isNone)

/-- Step archetype as registered in the stepTypes array: a name and a
detector.  Resolvers are modelled separately for the archetypes whose
resolution behaviour the specification describes. -/
structure StepType where
  name : String
  detect : PageState → Bool

/-- Registry of step archetypes in source registration order (script.js
lines 96-576). -/
def stepTypes : List StepType :=
  [⟨"skip_button", skip_button_detect⟩,
   ⟨"multi_select_button", multi_select_button_detect⟩,
   ⟨"email_input", email_input_detect⟩,
   ⟨"number_input", number_input_detect⟩,
   ⟨"single_button", single_button_detect⟩,
   ⟨"option", option_detect⟩,
   ⟨"single_option", single_option_detect⟩,
   ⟨"multi_option", multi_option_detect⟩,
   ⟨"occasion_result_screen", occasion_result_screen_detect⟩]

/-- Classifier (script.js lines 588-597): scan the registry in order and
return the first archetype whose detector fires. -/
def classify (p : PageState) : Option StepType :=
  stepTypes.find? fun st => st.detect p

/-- Completion vocabulary scanned for when the loop suspects it is stuck
(script.js lines 638-644). -/
def vocabWords : List String :=
  ["complete", "finish", "done", "success", "congratulations", "welcome"]

/-- Completion scan (script.js lines 638-644): some element whose
lower-cased text contains one of the completion words. -/
def completionIndicators (p : PageState) : Bool :=
  p.elements.any fun e => vocabWords.any fun w => substr w (lower e.text)

/-- Elements clicked by the single_button resolver (script.js lines
301-321): the first button matching the comma selector of the four
call-to-action markers is clicked once; a missing match clicks nothing.
The informational URL comparison after the click has no further effect. -/
def single_button_solve_clicks (p : PageState) : List Elem :=
  match p.elements.find? (fun b => b.tag == "button" &&
      (hasLoc b "CTAButton" || hasLoc b "tCTAButton" ||
       hasLoc b "ob_continue_btn" || hasLoc b "obContinue")) with
  | some b => [b]
  | none => []

/-- Visible buttons, modelling the selector button:visible (script.js line
555). -/
def visibleButtons (p : PageState) : List Elem :=
  p.elements.filter fun e => e.tag == "button" && e.visible

/-- Click loop of the occasion_result_screen resolver (script.js lines
557-570): for each visible button, if it is enabled and its lower-cased
text lacks "back", the code then evaluates locator.toLowerCase(); a null
locator makes that dereference raise a TypeError, modelled as an error
result.  Otherwise the first button passing all three checks is clicked
(click success is assumed; a caught click failure only logs). -/
def occasionClickLoop : List Elem → Except Unit (List Elem)
  | [] => Except.ok []
  | b :: rest =>
    if b.enabled && !(substr "back" (lower b.text)) then
      match b.dataLocator with
      | none => Except.error ()
      | some l =>
        if !(substr "back" (lower l)) then Except.ok [b]
        else occasionClickLoop rest
    else occasionClickLoop rest

/-- Resolver of the occasion_result_screen archetype, returning the clicked
elements or an error when the null-attribute dereference raises. -/
def occasion_result_screen_solve (p : PageState) : Except Unit (List Elem) :=
  occasionClickLoop (visibleButtons p)

/-- Mutable state of the main loop (script.js lines 579-583). -/
structure RunState where
  retryCount : Nat
  lastUrl : String
  stuckCount : Nat
  screenshotCounter : Nat
deriving DecidableEq

/-- Loop state at entry (script.js lines 579-583): zero counters and an
empty last-observed URL. -/
def initState : RunState := ⟨0, "", 0, 0⟩

/-- Iteration ceiling MAX_RETRIES (script.js line 582). -/
def MAX_RETRIES : Nat := 300

/-- Environment-supplied observations of one loop iteration: whether an
exception is raised during classification or resolution (caught at
script.js lines 664-667), and the page snapshot the iteration sees. -/
structure IterInput where
  throws : Bool
  page : PageState
deriving DecidableEq

/-- Terminal outcomes of the main loop: the completion-vocabulary break
(script.js line 648), the stuck-ceiling break (line 653), and the
retry-ceiling exit of the while condition (line 584). -/
inductive Outcome where
  | complete
  | abortedStuck
  | abortedCeiling
deriving DecidableEq

/-- One pass of the main loop body (script.js lines 584-667).  The first
component is some terminal outcome when the body breaks out of the loop,
and none when the loop continues with the returned state.  An exception
raised in the body is caught and counted as a retry; a solved step resets
the stuck counter, saves a screenshot and retries immediately; otherwise
the current URL is compared against the last observed URL, the stuck
counter is incremented or reset, and past the low threshold the completion
scan may break with COMPLETE, or past the high threshold the body breaks
with the stuck abort. -/
def stepIter (s : RunState) (inp : IterInput) : Option Outcome × RunState :=
  if inp.throws then
    (none, { s with retryCount := s.retryCount + 1 })
  else
    match classify inp.page with
    | some _ =>
      (none, { s with stuckCount := 0, retryCount := s.retryCount + 1,
                      screenshotCounter := s.screenshotCounter + 1 })
    | none =>
      let currentUrl := inp.page.url
      if currentUrl = s.lastUrl then
        let stuck := s.stuckCount + 1
        if 5 < stuck then
          if completionIndicators inp.page then
            (some Outcome.complete, { s with stuckCount := stuck })
          else if 10 < stuck then
            (some Outcome.abortedStuck, { s with stuckCount := stuck })
          else
            (none, { s with stuckCount := stuck, lastUrl := currentUrl,
                            retryCount := s.retryCount + 1 })
        else
          (none, { s with stuckCount := stuck, lastUrl := currentUrl,
                          retryCount := s.retryCount + 1 })
      else
        (none, { s with stuckCount := 0, lastUrl := currentUrl,
                        retryCount := s.retryCount + 1 })

/-- Retry-counter increment on every continuing pass of the loop body
(script.js lines 606, 662, 666), stated as a definition because the
recursive runner below needs it for its termination measure. -/
def stepIterRetryFact : ∀ (s : RunState) (inp : IterInput) (s' : RunState),
    stepIter s inp = (none, s') → s'.retryCount = s.retryCount + 1 := by
  intro s inp s' h
  by_cases ht : inp.throws = true
  · simp [stepIter, ht] at h
    cases h
    rfl
  · cases hc : classify inp.page with
    | some st =>
      simp [stepIter, ht, hc] at h
      cases h
      rfl
    | none =>
      by_cases hu : inp.page.url = s.lastUrl
      · by_cases hv : completionIndicators inp.page = true
        · by_cases h5 : 5 < s.stuckCount + 1
          · simp [stepIter, ht, hc, hu, h5, hv] at h
          · simp [stepIter, ht, hc, hu, h5] at h
            cases h
            rfl
        · by_cases h10 : 10 < s.stuckCount + 1
          · have h5 : 5 < s.stuckCount + 1 := by omega
            simp [stepIter, ht, hc, hu, h5, hv, h10] at h
          · by_cases h5 : 5 < s.stuckCount + 1
            · simp [stepIter, ht, hc, hu, h5, hv, h10] at h
              cases h
              rfl
            · simp [stepIter, ht, hc, hu, h5] at h
              cases h
              rfl
      · simp [stepIter, ht, hc, hu] at h
        cases h
        rfl

/-- Result of running the main loop over a finite list of iteration
observations: final state, terminal outcome (none while the loop is still
running), and the number of iterations executed. -/
structure StepsResult where
  state : RunState
  outcome : Option Outcome
  iters : Nat
deriving DecidableEq

/-- Finite-trace runner of the main loop: consume the supplied iteration
observations until the body breaks, the while condition fails, or the
observations run out. -/
def runSteps : RunState → List IterInput → StepsResult
  | s, [] => ⟨s, none, 0⟩
  | s, inp :: rest =>
    if s.retryCount < MAX_RETRIES then
      match stepIter s inp with
      | (some o, s') => ⟨s', some o, 1⟩
      | (none, s') =>
        let r := runSteps s' rest
        ⟨r.state, r.outcome, r.iters + 1⟩
    else ⟨s, some Outcome.abortedCeiling, 0⟩

/-- Result of a complete run of the main loop: terminal outcome, final
state and number of iterations executed. -/
structure RunResult where
  outcome : Outcome
  state : RunState
  iters : Nat
deriving DecidableEq

/-- Full runner of the main loop over an infinite stream of iteration
observations (stream k is what iteration k observes); terminates because
each continuing pass increments the retry counter, which the while
condition bounds by MAX_RETRIES (script.js line 584). -/
def runFrom (stream : Nat → IterInput) (n : Nat) (s : RunState) : RunResult :=
  if s.retryCount < MAX_RETRIES then
    match hstep : stepIter s (stream n) with
    | (some o, s') => ⟨o, s', 1⟩
    | (none, s') =>
      let r := runFrom stream (n + 1) s'
      ⟨r.outcome, r.state, r.iters + 1⟩
  else ⟨Outcome.abortedCeiling, s, 0⟩
termination_by MAX_RETRIES - s.retryCount
decreasing_by
  have hr := stepIterRetryFact s (stream n) s' hstep
  simp_wf
  omega

/-- Persisted seen-value store file as the script can find it: absent (the
read throws), unparseable (JSON.parse or the Set constructor throws), or a
well-formed list of values. -/
inductive StoreFile where
  | missing
  | malformed
  | wellFormed (values : List String)
deriving DecidableEq

/-- Loader of the seen-value store (script.js lines 14-21): read and parse
the file and build a set from the parsed list; the catch converts a missing
or malformed file into an empty set.  Set construction is modelled by
deduplicating the list. -/
def loadSeenValues : StoreFile → List String
  | StoreFile.missing => []
  | StoreFile.malformed => []
  | StoreFile.wellFormed vs => vs.dedup

/-- Outbound request captured during the observation window: its URL and
its parsed body, modelled as an association list of fields; none models a
missing or unparseable (or non-object) body, which the extractor skips. -/
structure CapturedRequest where
  url : String
  payload : Option (List (String × String))
deriving DecidableEq

/-- Endpoint fragment the gate scans for (script.js line 9). -/
def API_ENDPOINT : String := "wellfunnel-web-api.asqq.io/get-default-config/"

/-- Payload field the gate extracts (script.js line 10). -/
def TARGET_FIELD : String := "some_field"

/-- Field extractor (script.js lines 36-53): scan the captured requests in
order; for each request whose URL contains the endpoint fragment and whose
body parses to an object owning the field, return that field's value;
parse failures are ignored and the scan continues; with no hit the result
is none. -/
def extractFieldFromRequests : List CapturedRequest → String → String → Option String
  | [], _, _ => none
  | req :: rest, endpoint, field =>
    if substr endpoint req.url then
      match req.payload with
      | some kvs =>
        match kvs.lookup field with
        | some v => some v
        | none => extractFieldFromRequests rest endpoint field
      | none => extractFieldFromRequests rest endpoint field
    else extractFieldFromRequests rest endpoint field

/-- Modelled from the spec: the pre-loop feature-flag gate of the simpler
variant (spec section 4.4); the driver code of that variant, which wires
monitorNetwork, extractFieldFromRequests, loadSeenValues and saveSeenValues
together before the main loop, is not among the repository files under
src (only the helper functions it calls are, in script.js).  The gate
extracts the configured field from the captured requests; if the value is
present and not already a member of the persisted seen-value set, it is
inserted, the set is flushed to durable storage, and the main step loop is
allowed to run; otherwise the run exits without engaging the loop.  The
result is (main loop allowed to run, resulting store, store flushed). -/
def featureFlagGate (requests : List CapturedRequest) (store : List String) :
    Bool × List String × Bool :=
  match extractFieldFromRequests requests API_ENDPOINT TARGET_FIELD with
  | none => (false, store, false)
  | some v =>
    if store.contains v then (false, store, false)
    else (true, store ++ [v], true)

/-- Page with no elements at the URL "u": no archetype matches and no
completion vocabulary is present. -/
def pageU : PageState := ⟨"u", []⟩

/-- No-match, exception-free iteration observation at the URL "u". -/
def inpU : IterInput := ⟨false, pageU⟩

/-- Page at the URL "u" whose sole element carries the completion word
"done": no archetype matches but the completion scan is positive. -/
def pageVocab : PageState := ⟨"u", [⟨"div", none, "done", true, true⟩]⟩

/-- No-match, exception-free iteration observation whose completion scan is
positive. -/
def inpVocab : IterInput := ⟨false, pageVocab⟩

/-- Page whose sole element is a skip button: the skip_button archetype
matches. -/
def pageSkip : PageState :=
  ⟨"u", [⟨"button", some "skip_btn", "Skip", true, true⟩]⟩

/-- Enabled button whose locator matches the call-to-action selector family
through "obContinue" but does not contain "CTAButton". -/
def btnObContinue : Elem := ⟨"button", some "obContinue_x", "", true, true⟩

/-- Enabled button whose locator contains "CTAButton" and no "back". -/
def btnCTA : Elem := ⟨"button", some "CTAButton_go", "", true, true⟩

/-- Page presenting first the obContinue button and then the CTAButton
button. -/
def pageTwoButtons : PageState := ⟨"u", [btnObContinue, btnCTA]⟩

/-- Page presenting only the CTAButton button. -/
def pageOneCTA : PageState := ⟨"u", [btnCTA]⟩

/-- Result-screen page whose sole visible button is enabled, has no "back"
in its text, and carries no data-locator attribute. -/
def pageResultNullLoc : PageState :=
  ⟨"https://x/result", [⟨"button", none, "Continue", true, true⟩]⟩

/-!
Theorems.  First general lemmas about the loop body and the runners, then
one theorem per specification claim, each with its witness at concrete
inputs where the statement carries hypotheses.
-/

/-- Characterization of the loop body on an iteration that raises: the
exception is caught and counted as a retry (script.js lines 664-667). -/
theorem stepIter_throws (s : RunState) (inp : IterInput)
    (ht : inp.throws = true) :
    stepIter s inp = (none, { s with retryCount := s.retryCount + 1 }) := by
  simp [stepIter, ht]

/-- Characterization of the loop body on a solved iteration: stuck counter
reset, screenshot saved, immediate retry (script.js lines 599-608). -/
theorem stepIter_solved (s : RunState) (inp : IterInput) (st : StepType)
    (ht : inp.throws = false) (hc : classify inp.page = some st) :
    stepIter s inp =
      (none, { s with stuckCount := 0, retryCount := s.retryCount + 1,
                      screenshotCounter := s.screenshotCounter + 1 }) := by
  simp [stepIter, ht, hc]

/-- Characterization of the loop body on a no-match iteration whose URL
differs from the last observed one: stuck counter reset, URL recorded,
retry (script.js lines 656-662). -/
theorem stepIter_nomatch_changed (s : RunState) (inp : IterInput)
    (ht : inp.throws = false) (hc : classify inp.page = none)
    (hu : inp.page.url ≠ s.lastUrl) :
    stepIter s inp =
      (none, { s with stuckCount := 0, lastUrl := inp.page.url,
                      retryCount := s.retryCount + 1 }) := by
  simp [stepIter, ht, hc, hu]

/-- Characterization of the loop body on a no-match iteration with an
unchanged URL that does not cross a break threshold: stuck counter
incremented, retry (script.js lines 630-662). -/
theorem stepIter_nomatch_same_cont (s : RunState) (inp : IterInput)
    (ht : inp.throws = false) (hc : classify inp.page = none)
    (hu : inp.page.url = s.lastUrl)
    (hv : completionIndicators inp.page = false)
    (h10 : s.stuckCount + 1 ≤ 10) :
    stepIter s inp =
      (none, { s with stuckCount := s.stuckCount + 1, lastUrl := inp.page.url,
                      retryCount := s.retryCount + 1 }) := by
  by_cases h5 : 5 < s.stuckCount + 1
  · have h10' : ¬ 10 < s.stuckCount + 1 := by omega
    simp [stepIter, ht, hc, hu, h5, hv, h10']
  · simp [stepIter, ht, hc, hu, h5]

/-- Characterization of the loop body when the stuck counter has crossed
the low threshold and the completion scan is positive: break with COMPLETE
(script.js lines 634-649). -/
theorem stepIter_nomatch_vocab (s : RunState) (inp : IterInput)
    (ht : inp.throws = false) (hc : classify inp.page = none)
    (hu : inp.page.url = s.lastUrl) (h5 : 5 < s.stuckCount + 1)
    (hv : completionIndicators inp.page = true) :
    stepIter s inp =
      (some Outcome.complete, { s with stuckCount := s.stuckCount + 1 }) := by
  simp [stepIter, ht, hc, hu, h5, hv]

/-- Characterization of the loop body when the stuck counter has crossed
the high threshold with a negative completion scan: break with the stuck
abort (script.js lines 651-654). -/
theorem stepIter_nomatch_abort (s : RunState) (inp : IterInput)
    (ht : inp.throws = false) (hc : classify inp.page = none)
    (hu : inp.page.url = s.lastUrl)
    (hv : completionIndicators inp.page = false)
    (h10 : 10 < s.stuckCount + 1) :
    stepIter s inp =
      (some Outcome.abortedStuck, { s with stuckCount := s.stuckCount + 1 }) := by
  have h5 : 5 < s.stuckCount + 1 := by omega
  simp [stepIter, ht, hc, hu, h5, hv, h10]

/-- Unfolding of runFrom when the while condition fails (script.js line
584): the loop exits at the retry ceiling. -/
theorem runFrom_ceiling (stream : Nat → IterInput) (n : Nat) (s : RunState)
    (h : ¬ s.retryCount < MAX_RETRIES) :
    runFrom stream n s = ⟨Outcome.abortedCeiling, s, 0⟩ := by
  rw [runFrom]
  simp [h]

/-- Unfolding of runFrom when the body breaks with a terminal outcome. -/
theorem runFrom_halt (stream : Nat → IterInput) (n : Nat) (s : RunState)
    (o : Outcome) (s' : RunState) (hg : s.retryCount < MAX_RETRIES)
    (h : stepIter s (stream n) = (some o, s')) :
    runFrom stream n s = ⟨o, s', 1⟩ := by
  rw [runFrom, if_pos hg]
  split
  · rename_i o' s'' heq
    rw [h] at heq
    simp at heq
    obtain ⟨h1, h2⟩ := heq
    subst h1
    subst h2
    rfl
  · rename_i s'' heq
    rw [h] at heq
    simp at heq

/-- Unfolding of runFrom when the body continues with a new state. -/
theorem runFrom_cont (stream : Nat → IterInput) (n : Nat) (s : RunState)
    (s' : RunState) (hg : s.retryCount < MAX_RETRIES)
    (h : stepIter s (stream n) = (none, s')) :
    runFrom stream n s =
      ⟨(runFrom stream (n + 1) s').outcome, (runFrom stream (n + 1) s').state,
       (runFrom stream (n + 1) s').iters + 1⟩ := by
  rw [runFrom, if_pos hg]
  split
  · rename_i o' s'' heq
    rw [h] at heq
    simp at heq
  · rename_i s'' heq
    rw [h] at heq
    simp at heq
    subst heq
    rfl

/-- Full characterization of the classifier as the first-match cascade over
the registry in registration order (script.js lines 588-597). -/
theorem classify_cascade (p : PageState) :
    classify p =
      (if skip_button_detect p then
        some (⟨"skip_button", skip_button_detect⟩ : StepType)
      else if multi_select_button_detect p then
        some ⟨"multi_select_button", multi_select_button_detect⟩
      else if email_input_detect p then
        some ⟨"email_input", email_input_detect⟩
      else if number_input_detect p then
        some ⟨"number_input", number_input_detect⟩
      else if single_button_detect p then
        some ⟨"single_button", single_button_detect⟩
      else if option_detect p then
        some ⟨"option", option_detect⟩
      else if single_option_detect p then
        some ⟨"single_option", single_option_detect⟩
      else if multi_option_detect p then
        some ⟨"multi_option", multi_option_detect⟩
      else if occasion_result_screen_detect p then
        some ⟨"occasion_result_screen", occasion_result_screen_detect⟩
      else none) := by
  unfold classify stepTypes
  cases h0 : skip_button_detect p <;>
  cases h1 : multi_select_button_detect p <;>
  cases h2 : email_input_detect p <;>
  cases h3 : number_input_detect p <;>
  cases h4 : single_button_detect p <;>
  cases h5 : option_detect p <;>
  cases h6 : single_option_detect p <;>
  cases h7 : multi_option_detect p <;>
  cases h8 : occasion_result_screen_detect p <;>
  simp [h0, h1, h2, h3, h4, h5, h6, h7, h8]

/-- C1: the classifier evaluates the archetype detectors strictly in
registration order (skip_button, multi_select_button, email_input,
number_input, single_button, option, single_option, multi_option,
occasion_result_screen) and selects the resolver of the first detector
returning true, so at most one archetype resolves per iteration and for a
page state matched by two archetypes the earlier-registered one wins; the
first conjunct fixes the registration order, the second characterizes the
dispatch as the first-match cascade over it, and the third states that the
selected archetype's detector is positive. -/
theorem classifier_first_match_dispatch :
    (stepTypes.map StepType.name =
      ["skip_button", "multi_select_button", "email_input", "number_input",
       "single_button", "option", "single_option", "multi_option",
       "occasion_result_screen"]) ∧
    (∀ p : PageState, classify p =
      (if skip_button_detect p then
        some (⟨"skip_button", skip_button_detect⟩ : StepType)
      else if multi_select_button_detect p then
        some ⟨"multi_select_button", multi_select_button_detect⟩
      else if email_input_detect p then
        some ⟨"email_input", email_input_detect⟩
      else if number_input_detect p then
        some ⟨"number_input", number_input_detect⟩
      else if single_button_detect p then
        some ⟨"single_button", single_button_detect⟩
      else if option_detect p then
        some ⟨"option", option_detect⟩
      else if single_option_detect p then
        some ⟨"single_option", single_option_detect⟩
      else if multi_option_detect p then
        some ⟨"multi_option", multi_option_detect⟩
      else if occasion_result_screen_detect p then
        some ⟨"occasion_result_screen", occasion_result_screen_detect⟩
      else none)) ∧
    (∀ (p : PageState) (st : StepType), classify p = some st →
      st.detect p = true) :=
  ⟨rfl, classify_cascade, fun p st h => by
    have h' : stepTypes.find? (fun s => s.detect p) = some st := h
    exact List.find?_some (p := fun s => s.detect p) (a := st) h'⟩

/-- C9: the multi_option detector coincides with the earlier-registered
multi_select_button detector on every page state, so under first-match
dispatch the classifier never selects the multi_option archetype and its
resolver is unreachable. -/
theorem multi_option_unreachable (p : PageState) :
    (multi_option_detect p = multi_select_button_detect p) ∧
    (((classify p).map StepType.name == some "multi_option") = false) := by
  refine ⟨rfl, ?_⟩
  rw [classify_cascade]
  split_ifs with h0 h1 h2 h3 h4 h5 h6 h7 h8
  · rfl
  · rfl
  · rfl
  · rfl
  · rfl
  · rfl
  · rfl
  · exact absurd h7 h1
  · rfl
  · rfl

/-- Characterization of the loop body on a no-match iteration with an
unchanged URL below the low threshold: the completion scan is not consulted
and the body continues (script.js lines 630-662). -/
theorem stepIter_nomatch_same_low (s : RunState) (inp : IterInput)
    (ht : inp.throws = false) (hc : classify inp.page = none)
    (hu : inp.page.url = s.lastUrl) (h5 : ¬ 5 < s.stuckCount + 1) :
    stepIter s inp =
      (none, { s with stuckCount := s.stuckCount + 1, lastUrl := inp.page.url,
                      retryCount := s.retryCount + 1 }) := by
  simp [stepIter, ht, hc, hu, h5]

/-- Iteration-count bound of the full runner: the loop executes at most
MAX_RETRIES minus the entry retry count many passes. -/
theorem runFrom_iters_le (stream : Nat → IterInput) :
    ∀ (k n : Nat) (s : RunState), MAX_RETRIES - s.retryCount ≤ k →
      (runFrom stream n s).iters ≤ MAX_RETRIES - s.retryCount := by
  intro k
  induction k with
  | zero =>
    intro n s h
    have hg : ¬ s.retryCount < MAX_RETRIES := by omega
    have hi : (runFrom stream n s).iters = 0 := by
      rw [runFrom_ceiling stream n s hg]
    omega
  | succ k ih =>
    intro n s h
    by_cases hg : s.retryCount < MAX_RETRIES
    · cases hstep : stepIter s (stream n) with
      | mk o s' =>
        cases o with
        | some o =>
          have hi : (runFrom stream n s).iters = 1 := by
            rw [runFrom_halt stream n s o s' hg hstep]
          omega
        | none =>
          have hr := stepIterRetryFact s (stream n) s' hstep
          have hi : (runFrom stream n s).iters =
              (runFrom stream (n + 1) s').iters + 1 := by
            rw [runFrom_cont stream n s s' hg hstep]
          have hb := ih (n + 1) s' (by omega)
          omega
    · have hi : (runFrom stream n s).iters = 0 := by
        rw [runFrom_ceiling stream n s hg]
      omega

/-- C2: for every input sequence, including iterations where detectors or
resolvers throw, the main loop terminates: every continuing pass of the
body (solved, no-match, or caught exception) increments retryCount, so the
run executes at most MAX_RETRIES iterations before reaching a terminal
state. -/
theorem main_loop_terminates :
    (∀ (s : RunState) (inp : IterInput) (s' : RunState),
      stepIter s inp = (none, s') → s'.retryCount = s.retryCount + 1) ∧
    (∀ (stream : Nat → IterInput) (n : Nat) (s : RunState),
      (runFrom stream n s).iters ≤ MAX_RETRIES - s.retryCount) := by
  constructor
  · exact stepIterRetryFact
  · intro stream n s
    exact runFrom_iters_le stream (MAX_RETRIES - s.retryCount) n s (le_refl _)

/-- Witness for C2 at concrete inputs: a no-match pass from the entry state
increments retryCount to 1, and the run over a constant no-match stream
executes at most MAX_RETRIES iterations. -/
theorem main_loop_terminates_witness :
    ((⟨1, "u", 0, 0⟩ : RunState).retryCount = initState.retryCount + 1) ∧
    ((runFrom (fun _ => inpU) 0 initState).iters ≤
      MAX_RETRIES - initState.retryCount) :=
  ⟨main_loop_terminates.1 initState inpU ⟨1, "u", 0, 0⟩ (by decide),
   main_loop_terminates.2 (fun _ => inpU) 0 initState⟩

/-- Unfolding of runSteps when the body breaks with a terminal outcome. -/
theorem runSteps_halt (s : RunState) (inp : IterInput) (rest : List IterInput)
    (o : Outcome) (s' : RunState) (hg : s.retryCount < MAX_RETRIES)
    (h : stepIter s inp = (some o, s')) :
    runSteps s (inp :: rest) = ⟨s', some o, 1⟩ := by
  simp [runSteps, hg, h]

/-- Unfolding of runSteps when the body continues with a new state. -/
theorem runSteps_cont (s : RunState) (inp : IterInput) (rest : List IterInput)
    (s' : RunState) (hg : s.retryCount < MAX_RETRIES)
    (h : stepIter s inp = (none, s')) :
    runSteps s (inp :: rest) =
      ⟨(runSteps s' rest).state, (runSteps s' rest).outcome,
       (runSteps s' rest).iters + 1⟩ := by
  simp [runSteps, hg, h]

/-- Unfolding of runSteps when the while condition fails. -/
theorem runSteps_ceiling (s : RunState) (inp : IterInput)
    (rest : List IterInput) (hg : ¬ s.retryCount < MAX_RETRIES) :
    runSteps s (inp :: rest) = ⟨s, some Outcome.abortedCeiling, 0⟩ := by
  simp [runSteps, hg]

/-- Stuck-counter accumulation over consecutive no-match iterations with an
unchanged URL: when all supplied observations are exception-free no-match
passes at the last observed URL and every observation is consumed as a loop
iteration, the stuck counter grows by exactly the number of iterations. -/
theorem runSteps_stuck_aux :
    ∀ (l : List IterInput) (s : RunState),
      (∀ inp ∈ l, inp.throws = false ∧ classify inp.page = none ∧
        inp.page.url = s.lastUrl) →
      (runSteps s l).iters = l.length →
      (runSteps s l).state.stuckCount = s.stuckCount + l.length := by
  intro l
  induction l with
  | nil =>
    intro s _ _
    simp [runSteps]
  | cons inp rest ih =>
    intro s hin hiter
    obtain ⟨ht, hc, hu⟩ := hin inp (List.mem_cons_self _ _)
    by_cases hg : s.retryCount < MAX_RETRIES
    · by_cases h5 : 5 < s.stuckCount + 1
      · by_cases hv : completionIndicators inp.page = true
        · have hstep := stepIter_nomatch_vocab s inp ht hc hu h5 hv
          rw [runSteps_halt s inp rest _ _ hg hstep] at hiter ⊢
          simp at hiter ⊢
          subst hiter
          simp
        · rw [Bool.not_eq_true] at hv
          by_cases h10 : 10 < s.stuckCount + 1
          · have hstep := stepIter_nomatch_abort s inp ht hc hu hv h10
            rw [runSteps_halt s inp rest _ _ hg hstep] at hiter ⊢
            simp at hiter ⊢
            subst hiter
            simp
          · have hstep := stepIter_nomatch_same_cont s inp ht hc hu hv (by omega)
            rw [runSteps_cont s inp rest _ hg hstep] at hiter ⊢
            simp only [List.length_cons] at hiter ⊢
            have hrec := ih
              { s with
                stuckCount := s.stuckCount + 1,
                lastUrl := inp.page.url,
                retryCount := s.retryCount + 1 }
              (fun i hi => by
                obtain ⟨a, b, c⟩ := hin i (List.mem_cons_of_mem _ hi)
                refine ⟨a, b, ?_⟩
                show i.page.url = inp.page.url
                rw [c, hu])
              (by
                simp at hiter
                omega)
            simp at hrec ⊢
            omega
      · have hstep := stepIter_nomatch_same_low s inp ht hc hu h5
        rw [runSteps_cont s inp rest _ hg hstep] at hiter ⊢
        simp only [List.length_cons] at hiter ⊢
        have hrec := ih
          { s with
            stuckCount := s.stuckCount + 1,
            lastUrl := inp.page.url,
            retryCount := s.retryCount + 1 }
          (fun i hi => by
            obtain ⟨a, b, c⟩ := hin i (List.mem_cons_of_mem _ hi)
            refine ⟨a, b, ?_⟩
            show i.page.url = inp.page.url
            rw [c, hu])
          (by
            simp at hiter
            omega)
        simp at hrec ⊢
        omega
    · rw [runSteps_ceiling s inp rest hg] at hiter
      simp at hiter

/-- C4: stall monotonicity of the stuck counter — starting from a state
with a zero stuck counter, a run of consecutive exception-free no-match
iterations whose observed location is unchanged (each comparison is against
the location recorded on the previous iteration) leaves the stuck counter
equal to the number of such iterations; an iteration whose compared
location differs resets it to 0 and records the new location; an iteration
where an archetype resolves resets it to 0. -/
theorem stuck_counter_monotonicity :
    (∀ (s : RunState) (l : List IterInput), s.stuckCount = 0 →
      (∀ inp ∈ l, inp.throws = false ∧ classify inp.page = none ∧
        inp.page.url = s.lastUrl) →
      (runSteps s l).iters = l.length →
      (runSteps s l).state.stuckCount = l.length) ∧
    (∀ (s : RunState) (inp : IterInput), inp.throws = false →
      classify inp.page = none → inp.page.url ≠ s.lastUrl →
      stepIter s inp =
        (none, { s with stuckCount := 0, lastUrl := inp.page.url,
                        retryCount := s.retryCount + 1 })) ∧
    (∀ (s : RunState) (inp : IterInput) (st : StepType), inp.throws = false →
      classify inp.page = some st →
      stepIter s inp =
        (none, { s with stuckCount := 0, retryCount := s.retryCount + 1,
                        screenshotCounter := s.screenshotCounter + 1 })) := by
  refine ⟨?_, stepIter_nomatch_changed, stepIter_solved⟩
  intro s l h0 hin hiter
  have := runSteps_stuck_aux l s hin hiter
  omega

/-- Witness for C4 at concrete inputs: three unchanged no-match iterations
take the stuck counter from 0 to 3; a changed-location no-match pass resets
it to 0; a solved pass (a page with a skip button) resets it to 0. -/
theorem stuck_counter_monotonicity_witness :
    ((runSteps ⟨0, "u", 0, 0⟩ (List.replicate 3 inpU)).state.stuckCount =
      (List.replicate 3 inpU).length) ∧
    (stepIter ⟨0, "v", 0, 0⟩ inpU = (none, ⟨1, "u", 0, 0⟩)) ∧
    (stepIter ⟨0, "u", 2, 0⟩ ⟨false, pageSkip⟩ = (none, ⟨1, "u", 0, 1⟩)) := by
  refine ⟨?_, ?_, ?_⟩
  · exact stuck_counter_monotonicity.1 ⟨0, "u", 0, 0⟩ (List.replicate 3 inpU)
      rfl
      (fun i hi => by
        rw [List.eq_of_mem_replicate hi]
        exact ⟨rfl, rfl, rfl⟩)
      (by decide)
  · exact stuck_counter_monotonicity.2.1 ⟨0, "v", 0, 0⟩ inpU rfl rfl
      (by decide)
  · exact stuck_counter_monotonicity.2.2 ⟨0, "u", 2, 0⟩ ⟨false, pageSkip⟩
      ⟨"skip_button", skip_button_detect⟩ rfl rfl

/-- Stuck-abort run shape: from a state j short of the high threshold, a
stream of exception-free no-match observations at the last observed URL
with negative completion scans drives the run to the stuck abort in exactly
j iterations, with the stuck counter at 11 and one retry recorded for each
non-final iteration. -/
theorem runFrom_stuck_abort_aux :
    ∀ (j : Nat) (stream : Nat → IterInput) (n : Nat) (s : RunState),
      1 ≤ j → s.stuckCount + j = 11 → s.retryCount + j ≤ MAX_RETRIES →
      (∀ k, (stream k).throws = false ∧ classify (stream k).page = none ∧
        (stream k).page.url = s.lastUrl ∧
        completionIndicators (stream k).page = false) →
      runFrom stream n s =
        ⟨Outcome.abortedStuck,
         ⟨s.retryCount + (j - 1), s.lastUrl, 11, s.screenshotCounter⟩, j⟩ := by
  intro j
  induction j with
  | zero =>
    intro stream n s h1
    omega
  | succ j ih =>
    intro stream n s h1 h11 hr hstream
    obtain ⟨ht, hc, hu, hv⟩ := hstream n
    have hg : s.retryCount < MAX_RETRIES := by omega
    by_cases hj : j = 0
    · subst hj
      have h10 : 10 < s.stuckCount + 1 := by omega
      have hstep := stepIter_nomatch_abort s (stream n) ht hc hu hv h10
      rw [runFrom_halt stream n s _ _ hg hstep]
      have hs : s.stuckCount + 1 = 11 := by omega
      simp [hs]
    · have hstep := stepIter_nomatch_same_cont s (stream n) ht hc hu hv
        (by omega)
      rw [runFrom_cont stream n s _ hg hstep]
      have hrec := ih stream (n + 1)
        { s with
          stuckCount := s.stuckCount + 1,
          lastUrl := (stream n).page.url,
          retryCount := s.retryCount + 1 }
        (by omega)
        (by simp; omega)
        (by simp; omega)
        (fun k => by
          obtain ⟨a, b, c, d⟩ := hstream k
          refine ⟨a, b, ?_, d⟩
          show (stream k).page.url = (stream n).page.url
          rw [c, hu])
      rw [hrec]
      simp [hu]
      omega

/-- C3 (amended): after eleven consecutive exception-free no-match
iterations with the observed location unchanged and no completion
vocabulary present on those pages, the run transitions to the stuck abort
(ABORTED), not COMPLETE (first conjunct); at the high-threshold crossing
the completion scan is still consulted first, so completion vocabulary
present on that iteration yields COMPLETE instead (second conjunct). -/
theorem stuck_abort_after_eleven :
    (∀ (stream : Nat → IterInput) (n : Nat) (s : RunState),
      s.stuckCount = 0 → s.retryCount + 11 ≤ MAX_RETRIES →
      (∀ k, (stream k).throws = false ∧ classify (stream k).page = none ∧
        (stream k).page.url = s.lastUrl ∧
        completionIndicators (stream k).page = false) →
      runFrom stream n s =
        ⟨Outcome.abortedStuck,
         ⟨s.retryCount + 10, s.lastUrl, 11, s.screenshotCounter⟩, 11⟩) ∧
    (∀ (s : RunState) (inp : IterInput), inp.throws = false →
      classify inp.page = none → inp.page.url = s.lastUrl →
      s.stuckCount = 10 → completionIndicators inp.page = true →
      stepIter s inp =
        (some Outcome.complete, { s with stuckCount := 11 })) := by
  constructor
  · intro stream n s h0 hr hstream
    have := runFrom_stuck_abort_aux 11 stream n s (by omega) (by omega) hr
      hstream
    simpa using this
  · intro s inp ht hc hu h10 hv
    have := stepIter_nomatch_vocab s inp ht hc hu (by omega) hv
    rw [this, h10]

/-- C3 counterexample: a concrete run refuting the claim as stated — after
ten consecutive no-match iterations with unchanged location and no
completion vocabulary the loop is still running (outcome none, stuck
counter 10), not ABORTED; and when completion vocabulary appears on the
iteration that crosses the high threshold, the run transitions to COMPLETE,
so the high threshold does not abort regardless of completion vocabulary. -/
theorem stuck_abort_after_ten_refuted :
    ((runSteps ⟨0, "u", 0, 0⟩ (List.replicate 10 inpU)).outcome = none) ∧
    ((runSteps ⟨0, "u", 0, 0⟩ (List.replicate 10 inpU)).state.stuckCount =
      10) ∧
    ((runSteps ⟨0, "u", 0, 0⟩ (List.replicate 10 inpU ++ [inpVocab])).outcome
      = some Outcome.complete) := by
  refine ⟨by decide, by decide, by decide⟩

/-- Witness for C3 at concrete inputs: a constant no-match stream at the
unchanged URL "u" drives the fresh-counter state to the stuck abort in
eleven iterations, and a positive completion scan at stuck counter 10
breaks with COMPLETE. -/
theorem stuck_abort_after_eleven_witness :
    (runFrom (fun _ => inpU) 0 ⟨0, "u", 0, 0⟩ =
      ⟨Outcome.abortedStuck, ⟨10, "u", 11, 0⟩, 11⟩) ∧
    (stepIter ⟨3, "u", 10, 2⟩ inpVocab =
      (some Outcome.complete, ⟨3, "u", 11, 2⟩)) := by
  constructor
  · have := stuck_abort_after_eleven.1 (fun _ => inpU) 0 ⟨0, "u", 0, 0⟩ rfl
      (by decide) (fun k => ⟨rfl, rfl, rfl, rfl⟩)
    simpa using this
  · exact stuck_abort_after_eleven.2 ⟨3, "u", 10, 2⟩ inpVocab rfl rfl rfl rfl
      rfl

/-- C7 (amended): on every no-match iteration with unchanged location whose
incremented stuck counter exceeds the low threshold of 5 — not only when
the threshold is first crossed — the loop scans the page text for the
completion vocabulary (complete, finish, done, success, congratulations,
welcome); if any element's lower-cased text contains one of these words the
run transitions to COMPLETE and the loop halts on that iteration (first
conjunct); the second and third conjuncts pin down the scanned vocabulary
and the scan itself. -/
theorem completion_scan_every_stuck_iteration :
    (∀ (s : RunState) (inp : IterInput), inp.throws = false →
      classify inp.page = none → inp.page.url = s.lastUrl →
      5 < s.stuckCount + 1 → completionIndicators inp.page = true →
      stepIter s inp =
        (some Outcome.complete, { s with stuckCount := s.stuckCount + 1 })) ∧
    (vocabWords =
      ["complete", "finish", "done", "success", "congratulations",
       "welcome"]) ∧
    (∀ p : PageState, completionIndicators p =
      (p.elements.any fun e => vocabWords.any fun w =>
        substr w (lower e.text))) :=
  ⟨stepIter_nomatch_vocab, rfl, fun _ => rfl⟩

/-- C7 counterexample: a concrete run refuting the one-time reading of the
completion scan — at the first crossing of the low threshold (stuck counter
6) the scan is negative and the loop continues, yet on the next iteration
(stuck counter 7, not the first crossing) completion vocabulary appearing
on the page still transitions the run to COMPLETE, so the scan recurs on
every iteration past the threshold instead of happening one time. -/
theorem completion_scan_one_time_refuted :
    ((runSteps ⟨0, "u", 0, 0⟩ (List.replicate 6 inpU)).outcome = none) ∧
    ((runSteps ⟨0, "u", 0, 0⟩ (List.replicate 6 inpU)).state.stuckCount =
      6) ∧
    ((runSteps ⟨0, "u", 0, 0⟩ (List.replicate 6 inpU ++ [inpVocab])).outcome
      = some Outcome.complete) ∧
    ((runSteps ⟨0, "u", 0, 0⟩
        (List.replicate 6 inpU ++ [inpVocab])).state.stuckCount = 7) := by
  refine ⟨by decide, by decide, by decide, by decide⟩

/-- Witness for C7 at concrete inputs: a positive completion scan on a
no-match unchanged-location iteration at stuck counter 7 breaks with
COMPLETE on that iteration. -/
theorem completion_scan_every_stuck_iteration_witness :
    stepIter ⟨2, "u", 7, 1⟩ inpVocab =
      (some Outcome.complete, ⟨2, "u", 8, 1⟩) :=
  completion_scan_every_stuck_iteration.1 ⟨2, "u", 7, 1⟩ inpVocab rfl rfl rfl
    (by decide) rfl

/-- C5: feature-flag gate behaviour — when the extractor finds the
configured field's value in the captured traffic, a value not already in
the persisted seen-value set is inserted, the set is flushed, and the main
loop is allowed to run, while an already-seen value makes the run exit
without engaging the loop. -/
theorem feature_flag_gate_membership :
    ∀ (requests : List CapturedRequest) (store : List String) (v : String),
      extractFieldFromRequests requests API_ENDPOINT TARGET_FIELD = some v →
      ((store.contains v = false →
        featureFlagGate requests store = (true, store ++ [v], true)) ∧
       (store.contains v = true →
        featureFlagGate requests store = (false, store, false))) := by
  intro requests store v hx
  have hg : featureFlagGate requests store =
      if store.contains v then (false, store, false)
      else (true, store ++ [v], true) := by
    unfold featureFlagGate
    rw [hx]
  constructor
  · intro hm
    rw [hg, hm]
    simp
  · intro hm
    rw [hg, hm]
    simp

/-- Witness for C5 at the spec's concrete scenarios: an empty store accepts
"xyz789" (inserted, flushed, loop runs) and a store already holding
"abc123" rejects it (no flush, loop not engaged). -/
theorem feature_flag_gate_membership_witness :
    (featureFlagGate [⟨API_ENDPOINT, some [(TARGET_FIELD, "xyz789")]⟩] [] =
      (true, [] ++ ["xyz789"], true)) ∧
    (featureFlagGate [⟨API_ENDPOINT, some [(TARGET_FIELD, "abc123")]⟩]
      ["abc123"] = (false, ["abc123"], false)) :=
  ⟨(feature_flag_gate_membership
      [⟨API_ENDPOINT, some [(TARGET_FIELD, "xyz789")]⟩] [] "xyz789"
      (by decide)).1 (by decide),
   (feature_flag_gate_membership
      [⟨API_ENDPOINT, some [(TARGET_FIELD, "abc123")]⟩] ["abc123"] "abc123"
      (by decide)).2 (by decide)⟩

/-- C6: loading the seen-value store from a missing file returns the empty
set, loading it from a malformed file returns the empty set (the error is
absorbed, none is raised to the caller), and loading a well-formed file
returns the set of the stored values. -/
theorem load_seen_values_degrades :
    (loadSeenValues StoreFile.missing = []) ∧
    (loadSeenValues StoreFile.malformed = []) ∧
    (∀ (vs : List String) (x : String),
      x ∈ loadSeenValues (StoreFile.wellFormed vs) ↔ x ∈ vs) :=
  ⟨rfl, rfl, fun vs x => by simp [loadSeenValues]⟩

/-- Witness for C6 at a concrete well-formed store: membership in the
loaded set coincides with membership in the stored list. -/
theorem load_seen_values_degrades_witness :
    "abc123" ∈ loadSeenValues (StoreFile.wellFormed ["abc123", "abc123"]) ↔
      "abc123" ∈ ["abc123", "abc123"] :=
  load_seen_values_degrades.2.2 ["abc123", "abc123"] "abc123"

/-- Singleton filters determine find?: a list whose filtrate is exactly one
element yields that element as the first match. -/
theorem find?_eq_of_filter_singleton {α : Type} (pred : α → Bool) :
    ∀ (l : List α) (b : α), l.filter pred = [b] → l.find? pred = some b := by
  intro l
  induction l with
  | nil =>
    intro b h
    simp at h
  | cons a t ih =>
    intro b h
    by_cases ha : pred a = true
    · rw [List.filter_cons_of_pos ha] at h
      simp at h
      obtain ⟨h1, h2⟩ := h
      subst h1
      rw [List.find?_cons_of_pos _ ha]
    · rw [List.filter_cons_of_neg (by simpa using ha)] at h
      rw [List.find?_cons_of_neg _ (by simpa using ha)]
      exact ih b h

/-- C8 counterexample: the claim as stated is false — a page satisfying all
its preconditions (exactly one enabled button whose locator contains
"CTAButton" and no "back", here btnCTA, and no earlier-registered archetype
matching) on which the resolver nevertheless clicks a different control,
because its comma selector also matches the preceding button whose locator
contains "obContinue", so btnCTA does not receive the click. -/
theorem single_button_click_refuted :
    ¬ (∀ (p : PageState) (b : Elem), b ∈ p.elements → b.tag = "button" →
        b.enabled = true →
        (∃ l, b.dataLocator = some l ∧ substr "CTAButton" l = true ∧
          substr "back" l = false) →
        ((p.elements.filter fun e => e.tag == "button" && e.enabled &&
          (match e.dataLocator with
           | some l => substr "CTAButton" l && !(substr "back" l)
           | none => false)).length = 1) →
        skip_button_detect p = false → multi_select_button_detect p = false →
        email_input_detect p = false → number_input_detect p = false →
        (single_button_detect p = true ∧
          single_button_solve_clicks p = [b])) := by
  intro hclaim
  have h := hclaim pageTwoButtons btnCTA (by decide) rfl rfl
    ⟨"CTAButton_go", rfl, by decide, by decide⟩
    (by decide) (by decide) (by decide) (by decide) (by decide)
  have h2 := h.2
  rw [show single_button_solve_clicks pageTwoButtons = [btnObContinue]
    from by decide] at h2
  exact absurd h2 (by decide)

/-- C8 (amended): for a page state where exactly one button matches the
resolver's call-to-action selector family (CTAButton, tCTAButton,
ob_continue_btn, obContinue), that button is enabled with a non-empty
locator containing "CTAButton" and no "back", and no earlier-registered
archetype matches, the single_button detector returns true, the classifier
dispatches to single_button, and the resolver clicks that button exactly
once. -/
theorem single_button_scenario (p : PageState) (b : Elem)
    (hone : (p.elements.filter fun e => e.tag == "button" &&
      (hasLoc e "CTAButton" || hasLoc e "tCTAButton" ||
       hasLoc e "ob_continue_btn" || hasLoc e "obContinue")) = [b])
    (hloc : ∃ l, b.dataLocator = some l ∧ l.isEmpty = false ∧
      substr "CTAButton" l = true ∧ substr "back" l = false)
    (hen : b.enabled = true)
    (h1 : skip_button_detect p = false)
    (h2 : multi_select_button_detect p = false)
    (h3 : email_input_detect p = false)
    (h4 : number_input_detect p = false) :
    single_button_detect p = true ∧
    (classify p).map StepType.name = some "single_button" ∧
    single_button_solve_clicks p = [b] := by
  obtain ⟨l, hbl, hne, hcta, hback⟩ := hloc
  have hmem : b ∈ p.elements := by
    have : b ∈ p.elements.filter fun e => e.tag == "button" &&
        (hasLoc e "CTAButton" || hasLoc e "tCTAButton" ||
         hasLoc e "ob_continue_btn" || hasLoc e "obContinue") := by
      rw [hone]
      exact List.mem_singleton.mpr rfl
    exact List.mem_of_mem_filter this
  have hprop : (fun e => e.tag == "button" &&
      (hasLoc e "CTAButton" || hasLoc e "tCTAButton" ||
       hasLoc e "ob_continue_btn" || hasLoc e "obContinue")) b = true := by
    have : b ∈ p.elements.filter fun e => e.tag == "button" &&
        (hasLoc e "CTAButton" || hasLoc e "tCTAButton" ||
         hasLoc e "ob_continue_btn" || hasLoc e "obContinue") := by
      rw [hone]
      exact List.mem_singleton.mpr rfl
    exact (List.mem_filter.mp this).2
  have hbtn : (b.tag == "button") = true := by
    simp only [Bool.and_eq_true] at hprop
    exact hprop.1
  have hdet : single_button_detect p = true := by
    unfold single_button_detect
    rw [List.any_eq_true]
    refine ⟨b, hmem, ?_⟩
    rw [hbl]
    simp [hbtn, hne, hcta, hen, hback]
  refine ⟨hdet, ?_, ?_⟩
  · rw [classify_cascade p, if_neg (by simp [h1]), if_neg (by simp [h2]),
      if_neg (by simp [h3]), if_neg (by simp [h4]), if_pos hdet]
    rfl
  · unfold single_button_solve_clicks
    rw [find?_eq_of_filter_singleton _ _ _ hone]

/-- Witness for C8 at a concrete page: a page whose only element is the
enabled CTAButton button matches single_button, dispatches to it, and that
button receives the single click. -/
theorem single_button_scenario_witness :
    single_button_detect pageOneCTA = true ∧
    (classify pageOneCTA).map StepType.name = some "single_button" ∧
    single_button_solve_clicks pageOneCTA = [btnCTA] :=
  single_button_scenario pageOneCTA btnCTA (by decide)
    ⟨"CTAButton_go", rfl, by decide, by decide, by decide⟩ rfl
    (by decide) (by decide) (by decide) (by decide)

/-- C10: when the occasion_result_screen resolver's scan over the visible
buttons reaches a visible, enabled button whose lower-cased text lacks
"back" but which carries no data-locator attribute, the back-marker check
dereferences the null attribute and the resolver raises instead of clicking
the button (first conjunct); the exception propagates to the main loop,
whose catch counts the iteration as a retry without terminating the run
(second conjunct). -/
theorem occasion_null_locator_raises :
    (∀ (p : PageState) (pre post : List Elem) (b : Elem),
      visibleButtons p = pre ++ b :: post →
      (∀ c ∈ pre, (c.enabled && !(substr "back" (lower c.text))) = false) →
      b.enabled = true → substr "back" (lower b.text) = false →
      b.dataLocator = none →
      occasion_result_screen_solve p = Except.error ()) ∧
    (∀ (s : RunState) (inp : IterInput), inp.throws = true →
      stepIter s inp = (none, { s with retryCount := s.retryCount + 1 })) := by
  constructor
  · intro p pre post b hvis hpre hen htext hloc
    unfold occasion_result_screen_solve
    rw [hvis]
    clear hvis
    induction pre with
    | nil =>
      simp only [List.nil_append]
      unfold occasionClickLoop
      rw [hloc]
      simp [hen, htext]
    | cons c cs ih =>
      have hc := hpre c (List.mem_cons_self _ _)
      simp only [List.cons_append]
      unfold occasionClickLoop
      rw [if_neg (by simp [hc])]
      exact ih (fun x hx => hpre x (List.mem_cons_of_mem _ hx))
  · exact stepIter_throws

/-- Witness for C10 at a concrete page: the result-screen page whose only
visible button is enabled, lacks "back" in its text, and has a null
data-locator makes the resolver raise, and a throwing iteration from a
concrete state is counted as a retry with no terminal outcome. -/
theorem occasion_null_locator_raises_witness :
    (occasion_result_screen_solve pageResultNullLoc = Except.error ()) ∧
    (stepIter ⟨5, "u", 2, 3⟩ ⟨true, pageU⟩ = (none, ⟨6, "u", 2, 3⟩)) :=
  ⟨occasion_null_locator_raises.1 pageResultNullLoc [] []
    ⟨"button", none, "Continue", true, true⟩ rfl
    (fun c hc => absurd hc (List.not_mem_nil c)) rfl rfl rfl,
   occasion_null_locator_raises.2 ⟨5, "u", 2, 3⟩ ⟨true, pageU⟩ rfl⟩

